import Mathlib

/-!
Verification of the bash-bookmarks HTTP gateway (`src/bookmarks-server.py`
and its reduced near-duplicate `src/server.py`) against its natural-language
specification.

The servers are shallowly embedded: each request handler becomes a pure
function from the request data (path, parsed parameters, the outcome of the
external `bookmarks` subprocess, the static file system) to either an HTTP
response description, `none` when the handler returns without writing
anything, or a Python exception when the handler raises past the boundary.
-/

namespace BashBookmarks

/-- Python exceptions that the handlers can raise past the HTTP boundary. -/
inductive PyExn where
  | valueError
  | typeError
  | attributeError
  | jsonDecodeError
  | calledProcessError
deriving Repr, DecidableEq

/-- An HTTP response as the handlers write it: status line from
`send_response`, the `send_header` calls in order, and the body written to
`wfile`. -/
structure Response where
  status : Nat
  headers : List (String × String)
  body : String
deriving Repr, DecidableEq

/-- JSON values as produced by `json.loads` and consumed by `json.dumps`.
Numbers are modelled as integers: the external tool's records carry only
strings and string lists, and no claim involves floating-point literals. -/
inductive Json where
  | jnull
  | jbool (b : Bool)
  | jnum (n : Int)
  | jstr (s : String)
  | jarr (xs : List Json)
  | jobj (kvs : List (String × Json))
deriving Repr

/-- Outcome of `subprocess.check_output` on the suggest command: captured
stdout on exit 0, or the non-zero exit code (`CalledProcessError`). -/
inductive ToolOutcome where
  | ok (stdout : String)
  | fail (code : Int)
deriving Repr, DecidableEq

/-- Outcome of `subprocess.Popen(...).communicate()` on the add command. -/
structure ProcResult where
  returncode : Int
  stdout : String
  stderr : String
deriving Repr, DecidableEq

/-- A bookmark record as described by the external tool's CLI contract:
`\x7bid?,url,title,category,tags\x7d` objects. -/
structure BookmarkRecord where
  id : String
  url : String
  title : String
  category : String
  tags : List String
deriving Repr, DecidableEq

/-- The JSON object the external tool prints for one bookmark record. -/
def BookmarkRecord.toJson (r : BookmarkRecord) : Json :=
  Json.jobj [("id", Json.jstr r.id), ("url", Json.jstr r.url),
    ("title", Json.jstr r.title), ("category", Json.jstr r.category),
    ("tags", Json.jarr (r.tags.map Json.jstr))]

/-! ### Python string primitives

Structurally recursive models of the `str` methods the handlers use. -/

/-- Splitting worker: `acc` holds the current piece reversed, `fuel`
bounds the recursion by the input length. -/
def splitChars (sep : List Char) : Nat → List Char → List Char →
    List (List Char)
  | 0, acc, cs => [acc.reverse ++ cs]
  | fuel + 1, acc, cs =>
    if sep ≠ [] ∧ cs.take sep.length = sep then
      acc.reverse :: splitChars sep fuel [] (cs.drop sep.length)
    else
      match cs with
      | [] => [acc.reverse]
      | c :: rest => splitChars sep fuel (c :: acc) rest

/-- Python `s.split(sep)` for a non-empty separator: every occurrence
separates, empty pieces are kept, `"".split(sep) == [""]`. -/
def pySplit (s sep : String) : List String :=
  (splitChars sep.toList (s.toList.length + 1) [] s.toList).map String.mk

/-- Python `s.startswith(pre)`. -/
def pyStartsWith (s pre : String) : Bool :=
  decide (s.toList.take pre.toList.length = pre.toList)

/-- Python `c in s` for a single character. -/
def pyContainsChar (s : String) (c : Char) : Bool :=
  s.toList.contains c

/-! ### Python dict semantics

`dict(pairs)` assigns the pairs left to right: a repeated key keeps its
first position but takes the last value.  `d.get(k, default)` looks the key
up. -/

/-- One Python dict assignment `d[k] = v`. -/
def dictInsert (d : List (String × String)) (k v : String) :
    List (String × String) :=
  if d.any (fun kv => decide (kv.1 = k)) then
    d.map (fun kv => if kv.1 = k then (k, v) else kv)
  else d ++ [(k, v)]

/-- `dict(pairs)` for string pairs. -/
def pyDictOfPairs (ps : List (String × String)) : List (String × String) :=
  ps.foldl (fun d kv => dictInsert d kv.1 kv.2) []

/-- `d.get(k, default)` on a string dict. -/
def dictGet (d : List (String × String)) (k dflt : String) : String :=
  match d.find? (fun kv => decide (kv.1 = k)) with
  | some kv => kv.2
  | none => dflt

/-- Whether a key is present in a dict. -/
def dictHasKey (d : List (String × String)) (k : String) : Bool :=
  d.any (fun kv => decide (kv.1 = k))

/-- The two components of a two-element list, as `dict()` reads them. -/
def toPair (l : List String) : String × String :=
  ((l.get? 0).getD "", (l.get? 1).getD "")

/-- `dict([p.split(sep) for p in ...])`: every element must split into
exactly two pieces, otherwise `dict` raises `ValueError`. -/
def pyDict (raw : List (List String)) :
    Except PyExn (List (String × String)) :=
  if raw.all (fun l => decide (l.length = 2)) then
    Except.ok (pyDictOfPairs (raw.map toPair))
  else Except.error PyExn.valueError

/-- `obj.get(k)` on a JSON object's member list (keys are unique because
`json.loads` builds a dict; `none` is Python's `None`). -/
def jGet (kvs : List (String × Json)) (k : String) : Option Json :=
  (kvs.find? (fun kv => decide (kv.1 = k))).map (fun kv => kv.2)

/-- `dict` construction for JSON object members: a repeated key overwrites
its value in place, as `json.loads` does. -/
def jDictInsert (d : List (String × Json)) (k : String) (v : Json) :
    List (String × Json) :=
  if d.any (fun kv => decide (kv.1 = k)) then
    d.map (fun kv => if kv.1 = k then (k, v) else kv)
  else d ++ [(k, v)]

/-! ### `json.dumps` with its default settings (`ensure_ascii=True`,
separators `", "` and `": "`). -/

/-- Lowercase hexadecimal digit. -/
def hexDigit (n : Nat) : Char :=
  if n < 10 then Char.ofNat (48 + n) else Char.ofNat (87 + n)

/-- Four lowercase hex digits. -/
def hex4 (n : Nat) : String :=
  String.mk [hexDigit (n / 4096 % 16), hexDigit (n / 256 % 16),
    hexDigit (n / 16 % 16), hexDigit (n % 16)]

/-- How `json.dumps` writes one character of a string: the two-character
escapes, `\uXXXX` for other control characters and (under `ensure_ascii`)
for characters above 0x7f, surrogate pairs beyond the basic plane. -/
def escChar (c : Char) : String :=
  if c = '"' then "\\\""
  else if c = '\\' then "\\\\"
  else if c = '\n' then "\\n"
  else if c = '\r' then "\\r"
  else if c = '\t' then "\\t"
  else if c = Char.ofNat 8 then "\\b"
  else if c = Char.ofNat 12 then "\\f"
  else if c.toNat < 32 then "\\u" ++ hex4 c.toNat
  else if c.toNat < 128 then String.singleton c
  else if c.toNat < 65536 then "\\u" ++ hex4 c.toNat
  else
    "\\u" ++ hex4 (55296 + (c.toNat - 65536) / 1024) ++
    "\\u" ++ hex4 (56320 + (c.toNat - 65536) % 1024)

/-- `json.dumps` of a string, quotes included. -/
def dumpStr (s : String) : String :=
  "\"" ++ String.join (s.toList.map escChar) ++ "\""

/-- Python `sep.join(items)`. -/
def pyJoin (sep : String) : List String → String
  | [] => ""
  | [s] => s
  | s :: rest => s ++ sep ++ pyJoin sep rest

mutual
/-- `json.dumps` with its default settings. -/
def jsonDumps : Json → String
  | Json.jnull => "null"
  | Json.jbool true => "true"
  | Json.jbool false => "false"
  | Json.jnum n => toString n
  | Json.jstr s => dumpStr s
  | Json.jarr xs => "[" ++ pyJoin ", " (jsonDumpsList xs) ++ "]"
  | Json.jobj kvs => "\x7b" ++ pyJoin ", " (jsonDumpsMembers kvs) ++ "\x7d"

/-- The serialized elements of a JSON array, in order. -/
def jsonDumpsList : List Json → List String
  | [] => []
  | v :: vs => jsonDumps v :: jsonDumpsList vs

/-- The serialized `"key": value` members of a JSON object, in order. -/
def jsonDumpsMembers : List (String × Json) → List String
  | [] => []
  | (k, v) :: kvs => (dumpStr k ++ ": " ++ jsonDumps v) :: jsonDumpsMembers kvs
end

/-! ### `json.loads`

A fueled recursive-descent parser for the JSON subset the gateway
exchanges (all of JSON except floating-point literals, which no claim and
no tool record involves; a numeric literal with a fraction or exponent is
treated as unparsable here).  `none` models `json.JSONDecodeError`. -/

/-- The `\x7b` character. -/
def lbrace : Char := Char.ofNat 123

/-- The `\x7d` character. -/
def rbrace : Char := Char.ofNat 125

/-- JSON insignificant whitespace. -/
def isJsonWs (c : Char) : Bool :=
  c = ' ' ∨ c = '\t' ∨ c = '\n' ∨ c = '\r'

/-- Drop leading JSON whitespace. -/
def skipWs : List Char → List Char
  | [] => []
  | c :: cs => if isJsonWs c then skipWs cs else c :: cs

/-- Value of one hexadecimal digit. -/
def hexVal (c : Char) : Option Nat :=
  if '0' ≤ c ∧ c ≤ '9' then some (c.toNat - 48)
  else if 'a' ≤ c ∧ c ≤ 'f' then some (c.toNat - 87)
  else if 'A' ≤ c ∧ c ≤ 'F' then some (c.toNat - 55)
  else none

/-- Parse the body of a JSON string after the opening quote; returns the
decoded characters and the input after the closing quote.  Strict mode:
unescaped control characters are rejected.  (A lone `\u` surrogate half
decodes to the replacement behaviour of `Char.ofNat`; no claim involves
characters beyond the basic plane.) -/
def parseJStr : Nat → List Char → Option (List Char × List Char)
  | 0, _ => none
  | _, [] => none
  | fuel + 1, c :: cs =>
    if c = '"' then some ([], cs)
    else if c = '\\' then
      match cs with
      | [] => none
      | e :: cs2 =>
        if e = 'u' then
          match cs2 with
          | a :: b :: c3 :: d :: cs3 =>
            match hexVal a, hexVal b, hexVal c3, hexVal d with
            | some ha, some hb, some hc, some hd =>
              match parseJStr fuel cs3 with
              | some (rest, after) =>
                some (Char.ofNat (ha * 4096 + hb * 256 + hc * 16 + hd) :: rest,
                  after)
              | none => none
            | _, _, _, _ => none
          | _ => none
        else
          match
            (if e = '"' then some '"'
             else if e = '\\' then some '\\'
             else if e = '/' then some '/'
             else if e = 'b' then some (Char.ofNat 8)
             else if e = 'f' then some (Char.ofNat 12)
             else if e = 'n' then some '\n'
             else if e = 'r' then some '\r'
             else if e = 't' then some '\t'
             else none) with
          | none => none
          | some ch =>
            match parseJStr fuel cs2 with
            | some (rest, after) => some (ch :: rest, after)
            | none => none
    else if c.toNat < 32 then none
    else
      match parseJStr fuel cs with
      | some (rest, after) => some (c :: rest, after)
      | none => none

/-- Leading decimal digits and the rest of the input. -/
def spanDigits (cs : List Char) : List Char × List Char :=
  (cs.takeWhile (fun c => c.isDigit), cs.dropWhile (fun c => c.isDigit))

/-- Digits to a natural number, most significant first. -/
def digitsToNat (ds : List Char) : Nat :=
  ds.foldl (fun n c => n * 10 + (c.toNat - 48)) 0

/-- Parse a JSON integer literal (optional minus, `0` or a nonzero digit
followed by digits).  A following `.`, `e` or `E` would make it a float,
which this model treats as unparsable. -/
def parseIntTok (cs : List Char) : Option (Json × List Char) :=
  let (neg, cs1) :=
    match cs with
    | '-' :: rest => (true, rest)
    | _ => (false, cs)
  match spanDigits cs1 with
  | ([], _) => none
  | (ds, rest) =>
    if ds.length > 1 ∧ ds.head? = some '0' then none
    else
      match rest with
      | '.' :: _ => none
      | 'e' :: _ => none
      | 'E' :: _ => none
      | _ =>
        let n : Int := Int.ofNat (digitsToNat ds)
        some (Json.jnum (if neg then -n else n), rest)

mutual
/-- Parse one JSON value with leading whitespace, returning it and the
rest of the input. -/
def parseVal : Nat → List Char → Option (Json × List Char)
  | 0, _ => none
  | fuel + 1, cs0 =>
    match skipWs cs0 with
    | [] => none
    | c :: rest =>
      if c = 'n' then
        match rest with
        | 'u' :: 'l' :: 'l' :: r => some (Json.jnull, r)
        | _ => none
      else if c = 't' then
        match rest with
        | 'r' :: 'u' :: 'e' :: r => some (Json.jbool true, r)
        | _ => none
      else if c = 'f' then
        match rest with
        | 'a' :: 'l' :: 's' :: 'e' :: r => some (Json.jbool false, r)
        | _ => none
      else if c = '"' then
        match parseJStr (fuel + 1) rest with
        | some (content, r) => some (Json.jstr (String.mk content), r)
        | none => none
      else if c = '[' then
        match skipWs rest with
        | ']' :: r => some (Json.jarr [], r)
        | cs1 =>
          match parseVal fuel cs1 with
          | some (v, r) =>
            match parseArrRest fuel r with
            | some (vs, r2) => some (Json.jarr (v :: vs), r2)
            | none => none
          | none => none
      else if c = lbrace then
        let cs1 := skipWs rest
        if cs1.head? = some rbrace then some (Json.jobj [], cs1.tail)
        else
          match parseMember fuel cs1 with
          | some (kv, r) =>
            match parseObjRest fuel r with
            | some (kvs, r2) =>
              some (Json.jobj ((kv :: kvs).foldl
                (fun d p => jDictInsert d p.1 p.2) []), r2)
            | none => none
          | none => none
      else if c = '-' ∨ c.isDigit then parseIntTok (c :: rest)
      else none

/-- After one array element: a comma and another element, or the closing
bracket. -/
def parseArrRest : Nat → List Char → Option (List Json × List Char)
  | 0, _ => none
  | fuel + 1, cs =>
    match skipWs cs with
    | ']' :: r => some ([], r)
    | ',' :: r =>
      match parseVal fuel r with
      | some (v, r2) =>
        match parseArrRest fuel r2 with
        | some (vs, r3) => some (v :: vs, r3)
        | none => none
      | none => none
    | _ => none

/-- One `"key": value` object member. -/
def parseMember : Nat → List Char → Option ((String × Json) × List Char)
  | 0, _ => none
  | fuel + 1, cs =>
    match skipWs cs with
    | '"' :: r =>
      match parseJStr (fuel + 1) r with
      | some (k, r2) =>
        match skipWs r2 with
        | ':' :: r3 =>
          match parseVal fuel r3 with
          | some (v, r4) => some ((String.mk k, v), r4)
          | none => none
        | _ => none
      | none => none
    | _ => none

/-- After one object member: a comma and another member, or the closing
brace. -/
def parseObjRest : Nat → List Char → Option (List (String × Json) × List Char)
  | 0, _ => none
  | fuel + 1, cs =>
    match skipWs cs with
    | [] => none
    | c :: r =>
      if c = rbrace then some ([], r)
      else if c = ',' then
        match parseMember fuel r with
        | some (kv, r2) =>
          match parseObjRest fuel r2 with
          | some (kvs, r3) => some (kv :: kvs, r3)
          | none => none
        | none => none
      else none
end

/-- `json.loads`: one JSON value, optionally surrounded by whitespace,
spanning the whole input. -/
def jsonLoads (s : String) : Option Json :=
  match parseVal (s.length + 1) s.toList with
  | some (v, rest) => if skipWs rest = [] then some v else none
  | none => none

/-! ### The page template and the CORS headers -/

/-- `PAGE_TEMPLATE` up to the `\x7b\x7d` placeholder
(`src/bookmarks-server.py`; the `server.py` variant differs only in the
absence of the favicon link and is not needed by any claim). -/
def PAGE_TEMPLATE_PRE : String :=
  "\n<!DOCTYPE html>\n<html lang=\"en\">\n  <head>\n    <meta charset=\"utf-8\" />\n    <meta name=\"viewport\" content=\"width=device-width, initial-scale=1\" />\n    <title>Bookmarks</title>\n    <link rel=\"stylesheet\" href=\"https://cdn.jsdelivr.net/npm/@picocss/pico@1/css/pico.min.css\" />\n    <link rel=\"icon\" type=\"image/png\" href=\"/favicon.png\">\n  </head>\n  <body>\n    <main class=\"container\">\n    "

/-- `PAGE_TEMPLATE` after the placeholder. -/
def PAGE_TEMPLATE_POST : String :=
  "\n    </main>\n  </body>\n</html>\n"

/-- `PAGE_TEMPLATE.format(s)`. -/
def pageTemplate (s : String) : String :=
  PAGE_TEMPLATE_PRE ++ s ++ PAGE_TEMPLATE_POST

/-- The five headers of `send_cors_headers`, in call order. -/
def corsHeaders : List (String × String) :=
  [("Access-Control-Allow-Origin", "*"),
   ("Access-Control-Allow-Methods", "POST, GET, OPTIONS, PUT, DELETE"),
   ("Access-Control-Allow-Credentials", "true"),
   ("Access-Control-Max-Age", "86400"),
   ("Access-Control-Allow-Headers", "Content-Type, Authorization, X-Requested-With")]

/-- The headers `output_result` sends in its `json` branch:
`Content-type` followed by the CORS headers. -/
def jsonRespHeaders : List (String × String) :=
  ("Content-type", "application/json") :: corsHeaders

/-! ### `output_result` -/

/-- A Python list comprehension whose element expression may raise: the
first exception aborts the whole comprehension. -/
def mapExcept (f : α → Except PyExn β) : List α → Except PyExn (List β)
  | [] => Except.ok []
  | x :: xs =>
    match f x with
    | Except.error e => Except.error e
    | Except.ok y =>
      match mapExcept f xs with
      | Except.error e => Except.error e
      | Except.ok ys => Except.ok (y :: ys)

/-- `o.get(k)`: only a dict has `.get`; on anything else Python raises
`AttributeError`. -/
def objGet (k : String) : Json → Except PyExn (Option Json)
  | Json.jobj kvs => Except.ok (jGet kvs k)
  | _ => Except.error PyExn.attributeError

/-- `str.join` requires every item to be a string; `None` or any other
value raises `TypeError`. -/
def requireStr : Option Json → Except PyExn String
  | some (Json.jstr s) => Except.ok s
  | _ => Except.error PyExn.typeError

/-- The apostrophe character, for Python `repr` of strings. -/
def pyQuote : String := String.singleton (Char.ofNat 39)

mutual
/-- Python `str()` of a parsed JSON value nested in a container
(`repr`-style; string escaping inside `repr` is elided — no theorem
exercises this branch). -/
def pyRepr : Json → String
  | Json.jnull => "None"
  | Json.jbool true => "True"
  | Json.jbool false => "False"
  | Json.jnum n => toString n
  | Json.jstr s => pyQuote ++ s ++ pyQuote
  | Json.jarr xs => "[" ++ pyJoin ", " (pyReprList xs) ++ "]"
  | Json.jobj kvs => "\x7b" ++ pyJoin ", " (pyReprMembers kvs) ++ "\x7d"

/-- `repr` of the elements of a Python list. -/
def pyReprList : List Json → List String
  | [] => []
  | v :: vs => pyRepr v :: pyReprList vs

/-- `repr` of the members of a Python dict. -/
def pyReprMembers : List (String × Json) → List String
  | [] => []
  | (k, v) :: kvs =>
    (pyQuote ++ k ++ pyQuote ++ ": " ++ pyRepr v) :: pyReprMembers kvs
end

/-- What `"\x7b\x7d".format(x)` renders for `o.get(k)`: `None` for a
missing key, the text of a string, `str()` of anything else. -/
def pyFormatVal : Option Json → String
  | none => "None"
  | some (Json.jstr s) => s
  | some v => pyRepr v

/-- One `<li><a href="...">...</a></li>` item of the `html` branch: the
`title` becomes the href and the `url` the link text, as in the source. -/
def htmlItem (o : Json) : Except PyExn String :=
  match objGet "title" o with
  | Except.error e => Except.error e
  | Except.ok t =>
    match objGet "url" o with
    | Except.error e => Except.error e
    | Except.ok u =>
      Except.ok ("<li><a href=\"" ++ pyFormatVal t ++ "\">" ++ pyFormatVal u ++ "</a></li>")

/-- `output_result(result, format)`.  The three `if` branches of the
source; a `format` matching none of them writes nothing (`none`).  In the
`text` and `html` branches a non-list `result` raises (iterating a
non-sequence, or `.get` on its elements). -/
def output_result (result : Json) (format : String) :
    Except PyExn (Option Response) :=
  if format = "json" then
    Except.ok (some ⟨200, jsonRespHeaders, jsonDumps result⟩)
  else if format = "text" then
    match result with
    | Json.jarr objs =>
      match mapExcept (objGet "url") objs with
      | Except.error e => Except.error e
      | Except.ok urls =>
        match mapExcept requireStr urls with
        | Except.error e => Except.error e
        | Except.ok strs =>
          Except.ok (some ⟨200, [("Content-type", "text/plain")],
            pyJoin "\n" strs⟩)
    | _ => Except.error PyExn.typeError
  else if format = "html" then
    match result with
    | Json.jarr objs =>
      match mapExcept htmlItem objs with
      | Except.error e => Except.error e
      | Except.ok items =>
        Except.ok (some ⟨200, [("Content-type", "text/html")],
          pageTemplate ("<ul>" ++ pyJoin "" items ++ "</ul>")⟩)
    | _ => Except.error PyExn.typeError
  else Except.ok none

/-! ### Parameter parsing -/

/-- `dict([p.split('=') for p in qs.split('&')])`. -/
def parse_qs (qs : String) : Except PyExn (List (String × String)) :=
  pyDict ((pySplit qs "&").map (fun p => pySplit p "="))

/-- `parse_get_params`: the query string is everything between the first
and second `?` of the path; without a `?` the parameters are empty. -/
def parse_get_params (path : String) : Except PyExn (List (String × String)) :=
  if pyContainsChar path '?' then
    match pySplit path "?" with
    | _ :: qs :: _ => parse_qs qs
    | _ => Except.ok []
  else Except.ok []

/-- The URL-encoded branch of `parse_post_params`:
`dict([p.split('=') for p in body.split('&')])` on the decoded body (the
`application/json` branch instead runs `json.loads`). -/
def parse_post_params_urlencoded (body : String) :
    Except PyExn (List (String × String)) :=
  parse_qs body

/-! ### The search handler -/

/-- The suggest command line, `[command_dir + '/bookmarks', 'suggest',
search_value]`. -/
def suggest_command (command_dir search_value : String) : List String :=
  [command_dir ++ "/bookmarks", "suggest", search_value]

/-- The JSON error payload of the `except CalledProcessError` branch. -/
def searchErrorJson (search_value : String) : Json :=
  Json.jobj [("error", Json.jstr ("Error searching for " ++ search_value))]

/-- The response that branch produces (`output_result(..., 'json')`). -/
def searchErrorResponse (search_value : String) : Response :=
  ⟨200, jsonRespHeaders, jsonDumps (searchErrorJson search_value)⟩

/-- `handle_search` of `src/bookmarks-server.py` after parameter
extraction: run the tool on the query, convert a non-zero exit to the JSON
error payload, otherwise `json.loads` the stdout (raising
`JSONDecodeError` on invalid data) and render per `format`. -/
def run_search (search_value format : String)
    (tool : String → ToolOutcome) : Except PyExn (Option Response) :=
  match tool search_value with
  | ToolOutcome.fail _ => output_result (searchErrorJson search_value) "json"
  | ToolOutcome.ok out =>
    match jsonLoads out with
    | none => Except.error PyExn.jsonDecodeError
    | some v => output_result v format

/-- `handle_search` of `src/server.py` after parameter extraction: no
`try` around `check_output`, so a non-zero exit raises
`CalledProcessError` past the handler. -/
def run_search_v2 (search_value format : String)
    (tool : String → ToolOutcome) : Except PyExn (Option Response) :=
  match tool search_value with
  | ToolOutcome.fail _ => Except.error PyExn.calledProcessError
  | ToolOutcome.ok out =>
    match jsonLoads out with
    | none => Except.error PyExn.jsonDecodeError
    | some v => output_result v format

/-- The parameter-extraction lines of `handle_search`:
`search_value = get_params.get('q', '')`,
`format = get_params.get('format', 'html')`. -/
def search_after_params (ps : List (String × String))
    (tool : String → ToolOutcome) : Except PyExn (Option Response) :=
  run_search (dictGet ps "q" "") (dictGet ps "format" "html") tool

/-- `search_after_params` for the `src/server.py` variant. -/
def search_after_params_v2 (ps : List (String × String))
    (tool : String → ToolOutcome) : Except PyExn (Option Response) :=
  run_search_v2 (dictGet ps "q" "") (dictGet ps "format" "html") tool

/-- `handle_search(path)` of `src/bookmarks-server.py`.  `parse_params`
first parses the query string (a `ValueError` there propagates out of the
handler; `parse_post_params` is the identity on a body-less GET request). -/
def handle_search (path : String) (tool : String → ToolOutcome) :
    Except PyExn (Option Response) :=
  match parse_get_params path with
  | Except.error e => Except.error e
  | Except.ok ps => search_after_params ps tool

/-- `handle_search(path)` of `src/server.py`. -/
def handle_search_v2 (path : String) (tool : String → ToolOutcome) :
    Except PyExn (Option Response) :=
  match parse_get_params path with
  | Except.error e => Except.error e
  | Except.ok ps => search_after_params_v2 ps tool

/-! ### The add handler -/

/-- The add command line, `[command_dir + '/bookmarks', 'add', '--uri',
url, '--title', title, '--category', category]`. -/
def add_command (command_dir url title category : String) : List String :=
  [command_dir ++ "/bookmarks", "add", "--uri", url, "--title", title,
   "--category", category]

/-- `handle_add` after the subprocess has run (the extracted `url`,
`title`, `category` feed only the command line, `add_command`): a non-zero
exit turns the non-empty stderr lines into the JSON error payload, exit 0
yields the success payload; both through `output_result(..., 'json')`. -/
def handle_add (pr : ProcResult) : Except PyExn (Option Response) :=
  if pr.returncode ≠ 0 then
    output_result
      (Json.jobj [("error", Json.jstr "Error adding url"),
        ("message", Json.jarr
          (((pySplit pr.stderr "\n").filter (fun line => decide (line ≠ ""))).map
            Json.jstr))]) "json"
  else
    output_result (Json.jobj [("success", Json.jstr "Url added")]) "json"

/-! ### OPTIONS, errors, static assets -/

/-- `do_OPTIONS`: on a path under `/add`, status 200 and the CORS
headers, no body; on any other path the handler writes nothing. -/
def do_OPTIONS (path : String) : Option Response :=
  if pyStartsWith path "/add" then some ⟨200, corsHeaders, ""⟩ else none

/-- `handle_error(code, message)`: the JSON error body
`\x7b"error": message\x7d` with the given status. -/
def handle_error (code : Nat) (message : String) : Response :=
  ⟨code, [("Content-type", "application/json")],
   jsonDumps (Json.jobj [("error", Json.jstr message)])⟩

/-- The fixed extension-to-content-type table of `do_GET`. -/
def extension_to_content_type : List (String × String) :=
  [(".js", "application/javascript"), (".json", "application/json"),
   (".html", "text/html"), (".svg", "image/svg+xml"), (".css", "text/css"),
   (".png", "image/png")]

/-- `os.path.splitext(p)[1]`: in the final path component, the suffix
from the last dot that does not belong to the component's leading dots. -/
def splitext_ext (p : String) : String :=
  let base := ((pySplit p "/").getLast?).getD p
  let cs := base.toList
  let lead := (cs.takeWhile (fun c => decide (c = '.'))).length
  let dotIdxs := (List.range cs.length).filter
    (fun i => decide (cs.get? i = some '.' ∧ lead ≤ i))
  match dotIdxs.getLast? with
  | some i => String.mk (cs.drop i)
  | none => ""

/-- The static directory, as the set of relative paths that exist and are
regular files, with their contents (`static_dir + self.path` → bytes). -/
def fsLookup (fs : List (String × String)) (p : String) : Option String :=
  (fs.find? (fun f => decide (f.1 = p))).map (fun f => f.2)

/-- The `GET /` informational page. -/
def homeResponse : Response :=
  ⟨200, [("Content-type", "text/html")],
   pageTemplate "Go to <a href=\"https://github.com/ArtBIT/bash-bookmarks\">Bash bookmarks</a> for more info."⟩

/-- The `/form` page body literal of `handle_form`. -/
def FORM_HTML : String :=
  "\n        <form action=\"/add\" method=\"post\">\n            <label for=\"url\">Url</label>\n            <input type=\"text\" id=\"url\" name=\"url\" required>\n            <label for=\"title\">Title</label>\n            <input type=\"text\" id=\"title\" name=\"title\" required>\n            <label for=\"category\">Category</label>\n            <input type=\"text\" id=\"category\" name=\"category\" required>\n            <input type=\"submit\" value=\"Add\">\n        </form>\n\n        "

/-- The `/form` response. -/
def formResponse : Response :=
  ⟨200, [("Content-type", "text/html")], pageTemplate FORM_HTML⟩

/-- `do_GET` of `src/bookmarks-server.py`: `/search` and `/form`
prefixes first; then the static branch guarded by existence and
is-regular-file of `static_dir + path` (`fsLookup`), rejecting an
extension outside the table with `handle_error(404, ...)` and serving the
file with the mapped content type otherwise; then the `/` info page; any
other path is only logged — nothing is written. -/
def do_GET (fs : List (String × String)) (path : String)
    (tool : String → ToolOutcome) : Except PyExn (Option Response) :=
  if pyStartsWith path "/search" then handle_search path tool
  else if pyStartsWith path "/form" then Except.ok (some formResponse)
  else
    match fsLookup fs path with
    | some contents =>
      let extension := splitext_ext path
      match (extension_to_content_type.find?
          (fun kv => decide (kv.1 = extension))) with
      | none =>
        Except.ok (some (handle_error 404 ("Invalid extension " ++ extension)))
      | some kv =>
        Except.ok (some ⟨200, [("Content-type", kv.2)], contents⟩)
    | none =>
      if path = "/" ∨ path = "" then Except.ok (some homeResponse)
      else Except.ok none

/-! ## Helper lemmas -/

/-- The serialized array elements are the elementwise serializations. -/
theorem jsonDumpsList_eq_map (xs : List Json) :
    jsonDumpsList xs = xs.map jsonDumps := by
  induction xs with
  | nil => rfl
  | cons v vs ih => simp [jsonDumpsList, ih]

/-- `get` on a dict without the key returns the default. -/
theorem dictGet_of_no_key (ps : List (String × String)) (k d : String)
    (h : dictHasKey ps k = false) : dictGet ps k d = d := by
  unfold dictGet
  have hfind : ps.find? (fun kv => decide (kv.1 = k)) = none := by
    rw [List.find?_eq_none]
    intro kv hkv
    unfold dictHasKey at h
    rw [List.any_eq_false] at h
    exact fun hc => (h kv hkv) hc
  rw [hfind]

/-! ## The claims -/

/-- The anchor item of the spec's rendering contract: the `title` as the
href target and the `url` as the link text. -/
def htmlAnchorSpec (r : BookmarkRecord) : String :=
  "<li><a href=\"" ++ r.title ++ "\">" ++ r.url ++ "</a></li>"

/-- The text rendering of the spec's rendering contract: one URL per
line, newline-joined, no trailing newline. -/
def textRenderSpec (recs : List BookmarkRecord) : String :=
  pyJoin "\n" (recs.map (fun r => r.url))

/-- `htmlItem` on a bookmark record's JSON object is the spec anchor. -/
theorem htmlItem_toJson (r : BookmarkRecord) :
    htmlItem r.toJson = Except.ok (htmlAnchorSpec r) := rfl

/-- Claim C1, counterexample.  A Search request whose parameter map has no
`q` key is not rejected: with the external tool echoing its query back as
a one-element JSON array, the request `/search?format=json` succeeds with
status 200 and the echoed body `[""]` — the handler forwarded the empty
string instead of failing with BadRequest. -/
theorem C1_counterexample :
    handle_search "/search?format=json"
        (fun q => ToolOutcome.ok ("[\"" ++ q ++ "\"]")) =
      Except.ok (some ⟨200, jsonRespHeaders, "[\"\"]"⟩) := rfl

/-- Claim C1, amended: a Search request without a `q` key is permitted,
the query defaults to the empty string which is forwarded to the suggest
operation, and the request behaves exactly as if `q` were present with
the empty string as value; no BadRequest is produced. -/
theorem C1_missing_q (ps : List (String × String)) (tool : String → ToolOutcome)
    (h : dictHasKey ps "q" = false) :
    search_after_params ps tool =
      run_search "" (dictGet ps "format" "html") tool ∧
    search_after_params ps tool = search_after_params (("q", "") :: ps) tool := by
  have hq : dictGet ps "q" "" = "" := dictGet_of_no_key ps "q" "" h
  constructor
  · unfold search_after_params
    rw [hq]
  · unfold search_after_params
    rw [hq]
    rfl

/-- Claim C1, witness at a concrete parameter map without `q`. -/
theorem C1_missing_q_witness :
    dictHasKey [("format", "json")] "q" = false ∧
    search_after_params [("format", "json")] (fun _ => ToolOutcome.ok "[]") =
      run_search "" (dictGet [("format", "json")] "format" "html")
        (fun _ => ToolOutcome.ok "[]") :=
  ⟨by decide,
   (C1_missing_q [("format", "json")] (fun _ => ToolOutcome.ok "[]") (by decide)).1⟩

/-- Claim C2, counterexample.  The external tool exits 0 but prints
unparsable output: `handle_search` raises `JSONDecodeError` past the
handler and the request receives no HTTP response; in the `server.py`
variant even a non-zero exit raises uncaught (`CalledProcessError`). -/
theorem C2_counterexample :
    handle_search "/search?q=foo&format=json" (fun _ => ToolOutcome.ok "not json") =
      Except.error PyExn.jsonDecodeError ∧
    handle_search_v2 "/search?q=foo&format=json" (fun _ => ToolOutcome.fail 1) =
      Except.error PyExn.calledProcessError := ⟨rfl, rfl⟩

/-- Claim C2, amended: in `bookmarks-server.py` a non-zero tool exit is
converted to a JSON error-payload HTTP response (status 200), but
unparsable tool output raises uncaught and the request gets no response;
in `server.py` a non-zero exit raises uncaught as well. -/
theorem C2_upstream_errors (ps : List (String × String))
    (tool : String → ToolOutcome) :
    (∀ c, tool (dictGet ps "q" "") = ToolOutcome.fail c →
      search_after_params ps tool =
        Except.ok (some (searchErrorResponse (dictGet ps "q" ""))) ∧
      search_after_params_v2 ps tool = Except.error PyExn.calledProcessError) ∧
    (∀ out, tool (dictGet ps "q" "") = ToolOutcome.ok out → jsonLoads out = none →
      search_after_params ps tool = Except.error PyExn.jsonDecodeError ∧
      search_after_params_v2 ps tool = Except.error PyExn.jsonDecodeError) := by
  constructor
  · intro c hc
    constructor
    · unfold search_after_params run_search
      simp [hc, output_result, searchErrorResponse]
    · unfold search_after_params_v2 run_search_v2
      simp [hc]
  · intro out hout hparse
    constructor
    · unfold search_after_params run_search
      simp [hout, hparse]
    · unfold search_after_params_v2 run_search_v2
      simp [hout, hparse]

/-- Claim C2, witness at a concrete failing tool. -/
theorem C2_upstream_errors_witness :
    search_after_params [("q", "x")] (fun _ => ToolOutcome.fail 1) =
      Except.ok (some (searchErrorResponse "x")) ∧
    search_after_params_v2 [("q", "x")] (fun _ => ToolOutcome.fail 1) =
      Except.error PyExn.calledProcessError := by
  have h := (C2_upstream_errors [("q", "x")] (fun _ => ToolOutcome.fail 1)).1 1 rfl
  exact ⟨h.1, h.2⟩

/-- Claim C3: an AddBookmark whose tool exits 0 yields the success
payload; a non-zero exit yields the JSON error payload whose `message` is
exactly the non-empty stderr lines in order; in particular exit 1 with
stderr `bad url\n\n` yields the serialization of
`\x7b"error": "Error adding url", "message": ["bad url"]\x7d`, whose parse
is exactly that JSON object. -/
theorem C3_add_payloads (pr : ProcResult) :
    (pr.returncode = 0 → handle_add pr = Except.ok (some ⟨200, jsonRespHeaders,
      jsonDumps (Json.jobj [("success", Json.jstr "Url added")])⟩)) ∧
    (pr.returncode ≠ 0 → handle_add pr = Except.ok (some ⟨200, jsonRespHeaders,
      jsonDumps (Json.jobj [("error", Json.jstr "Error adding url"),
        ("message", Json.jarr
          (((pySplit pr.stderr "\n").filter (fun line => decide (line ≠ ""))).map
            Json.jstr))])⟩)) ∧
    handle_add ⟨1, "", "bad url\n\n"⟩ = Except.ok (some ⟨200, jsonRespHeaders,
      jsonDumps (Json.jobj [("error", Json.jstr "Error adding url"),
        ("message", Json.jarr [Json.jstr "bad url"])])⟩) ∧
    jsonLoads (jsonDumps (Json.jobj [("error", Json.jstr "Error adding url"),
        ("message", Json.jarr [Json.jstr "bad url"])])) =
      some (Json.jobj [("error", Json.jstr "Error adding url"),
        ("message", Json.jarr [Json.jstr "bad url"])]) := by
  refine ⟨?_, ?_, rfl, rfl⟩
  · intro h
    simp [handle_add, h, output_result]
  · intro h
    simp [handle_add, h, output_result]

/-- Claim C3, witness at a succeeding and at the spec's failing tool. -/
theorem C3_add_payloads_witness :
    handle_add ⟨0, "", ""⟩ = Except.ok (some ⟨200, jsonRespHeaders,
      jsonDumps (Json.jobj [("success", Json.jstr "Url added")])⟩) ∧
    handle_add ⟨1, "", "bad url\n\n"⟩ = Except.ok (some ⟨200, jsonRespHeaders,
      jsonDumps (Json.jobj [("error", Json.jstr "Error adding url"),
        ("message", Json.jarr [Json.jstr "bad url"])])⟩) :=
  ⟨(C3_add_payloads ⟨0, "", ""⟩).1 rfl, (C3_add_payloads ⟨1, "", "bad url\n\n"⟩).2.2.1⟩

/-- Claim C4, counterexample.  A request for a missing static file
(empty static directory, path `/missing.js`) produces no response at all
— `do_GET` falls through to the logging return, writing neither a status
line nor a body — instead of the claimed 404 JSON NotFound. -/
theorem C4_counterexample :
    do_GET [] "/missing.js" (fun _ => ToolOutcome.ok "[]") = Except.ok none := rfl

/-- Claim C4, amended: an existing regular file whose extension is in the
table is served with status 200 and the mapped content type; an existing
file with an unknown extension yields the 404 JSON error; but a missing
file yields no response at all (nothing is written). -/
theorem C4_static_assets (fs : List (String × String)) (path : String)
    (tool : String → ToolOutcome)
    (h1 : pyStartsWith path "/search" = false)
    (h2 : pyStartsWith path "/form" = false) :
    (∀ contents, fsLookup fs path = some contents →
      (∀ kv, extension_to_content_type.find?
          (fun e => decide (e.1 = splitext_ext path)) = some kv →
        do_GET fs path tool =
          Except.ok (some ⟨200, [("Content-type", kv.2)], contents⟩)) ∧
      (extension_to_content_type.find?
          (fun e => decide (e.1 = splitext_ext path)) = none →
        do_GET fs path tool = Except.ok (some (handle_error 404
          ("Invalid extension " ++ splitext_ext path))) ∧
        (handle_error 404 ("Invalid extension " ++ splitext_ext path)).status = 404)) ∧
    (fsLookup fs path = none → ¬(path = "/" ∨ path = "") →
      do_GET fs path tool = Except.ok none) := by
  constructor
  · intro contents hc
    constructor
    · intro kv hkv
      simp [do_GET, h1, h2, hc, hkv]
    · intro hnone
      refine ⟨?_, rfl⟩
      simp [do_GET, h1, h2, hc, hnone]
  · intro hn hne
    simp [do_GET, h1, h2, hn, hne]

/-- Claim C4, witness: a known extension is served with its content type,
an unknown extension on an existing file yields the 404 JSON error. -/
theorem C4_static_assets_witness :
    do_GET [("/a.js", "x")] "/a.js" (fun _ => ToolOutcome.ok "[]") =
      Except.ok (some ⟨200, [("Content-type", "application/javascript")], "x"⟩) ∧
    do_GET [("/a.xyz", "x")] "/a.xyz" (fun _ => ToolOutcome.ok "[]") =
      Except.ok (some (handle_error 404 "Invalid extension .xyz")) := by
  constructor
  · exact ((C4_static_assets [("/a.js", "x")] "/a.js" (fun _ => ToolOutcome.ok "[]")
      (by decide) (by decide)).1 "x" rfl).1 (".js", "application/javascript") rfl
  · exact (((C4_static_assets [("/a.xyz", "x")] "/a.xyz" (fun _ => ToolOutcome.ok "[]")
      (by decide) (by decide)).1 "x" rfl).2 rfl).1

/-- Claim C5: when every `&`-separated segment has exactly one `=`, the
parser returns the dict of the (undecoded) pairs, and the URL-encoded
POST body parser is the same map; a segment with two `=` (a value
containing `=`) or with none raises `ValueError` out of the handler, so
no HTTP response is produced. -/
theorem C5_param_parsing (s : String)
    (h : ∀ p ∈ pySplit s "&", (pySplit p "=").length = 2) :
    parse_qs s = Except.ok (pyDictOfPairs
      ((pySplit s "&").map (fun p => toPair (pySplit p "=")))) ∧
    parse_post_params_urlencoded s = parse_qs s ∧
    handle_search "/search?q=a=b" (fun _ => ToolOutcome.ok "[]") =
      Except.error PyExn.valueError ∧
    handle_search "/search?flag" (fun _ => ToolOutcome.ok "[]") =
      Except.error PyExn.valueError := by
  refine ⟨?_, rfl, rfl, rfl⟩
  unfold parse_qs pyDict
  have hall : ((pySplit s "&").map (fun p => pySplit p "=")).all
      (fun l => decide (l.length = 2)) = true := by
    rw [List.all_eq_true]
    intro l hl
    rcases List.mem_map.mp hl with ⟨p, hp, rfl⟩
    exact decide_eq_true (h p hp)
  rw [if_pos hall, List.map_map]
  rfl

/-- Claim C5, witness at a well-formed query string. -/
theorem C5_param_parsing_witness :
    parse_qs "a=1&b=2" = Except.ok (pyDictOfPairs
      ((pySplit "a=1&b=2" "&").map (fun p => toPair (pySplit p "=")))) ∧
    handle_search "/search?q=a=b" (fun _ => ToolOutcome.ok "[]") =
      Except.error PyExn.valueError := by
  have h := C5_param_parsing "a=1&b=2" (by decide)
  exact ⟨h.1, h.2.2.1⟩

/-- Claim C6: rendering a record sequence in `html` format yields an
unordered list with one item per record in order, each an anchor whose
href is the record's `title` and whose text is its `url`, embedded in the
page template. -/
theorem C6_html_rendering (recs : List BookmarkRecord) :
    output_result (Json.jarr (recs.map BookmarkRecord.toJson)) "html" =
      Except.ok (some ⟨200, [("Content-type", "text/html")],
        pageTemplate ("<ul>" ++ pyJoin "" (recs.map htmlAnchorSpec) ++ "</ul>")⟩) := by
  have hmap : mapExcept htmlItem (recs.map BookmarkRecord.toJson) =
      Except.ok (recs.map htmlAnchorSpec) := by
    induction recs with
    | nil => rfl
    | cons r rs ih => simp [mapExcept, htmlItem_toJson, ih]
  simp [output_result, hmap]

/-- Claim C7: when the tool's output parses as a record sequence and the
format is `json`, the Search response body is the re-serialization of
that parsed sequence, elementwise and in order. -/
theorem C7_json_reserialization (path : String) (ps : List (String × String))
    (tool : String → ToolOutcome) (out : String) (recs : List Json)
    (hps : parse_get_params path = Except.ok ps)
    (hfmt : dictGet ps "format" "html" = "json")
    (htool : tool (dictGet ps "q" "") = ToolOutcome.ok out)
    (hparse : jsonLoads out = some (Json.jarr recs)) :
    handle_search path tool = Except.ok (some ⟨200, jsonRespHeaders,
      jsonDumps (Json.jarr recs)⟩) ∧
    jsonDumps (Json.jarr recs) =
      "[" ++ pyJoin ", " (recs.map jsonDumps) ++ "]" := by
  constructor
  · simp [handle_search, hps, search_after_params, run_search, htool, hparse,
      hfmt, output_result]
  · simp [jsonDumps, jsonDumpsList_eq_map]

/-- Claim C7, witness at the spec's example record. -/
theorem C7_json_reserialization_witness :
    handle_search "/search?q=foo&format=json"
        (fun _ => ToolOutcome.ok "[\x7b\"url\": \"http://a\", \"title\": \"A\"\x7d]") =
      Except.ok (some ⟨200, jsonRespHeaders, jsonDumps (Json.jarr
        [Json.jobj [("url", Json.jstr "http://a"), ("title", Json.jstr "A")]])⟩) :=
  (C7_json_reserialization "/search?q=foo&format=json"
    [("q", "foo"), ("format", "json")]
    (fun _ => ToolOutcome.ok "[\x7b\"url\": \"http://a\", \"title\": \"A\"\x7d]")
    "[\x7b\"url\": \"http://a\", \"title\": \"A\"\x7d]"
    [Json.jobj [("url", Json.jstr "http://a"), ("title", Json.jstr "A")]]
    rfl rfl rfl rfl).1

/-- `objGet "url"` on a record's JSON object. -/
theorem objGet_url_toJson (r : BookmarkRecord) :
    objGet "url" r.toJson = Except.ok (some (Json.jstr r.url)) := rfl

/-- The `url` extraction of the `text` branch on a record sequence. -/
theorem mapExcept_objGet_url (recs : List BookmarkRecord) :
    mapExcept (objGet "url") (recs.map BookmarkRecord.toJson) =
      Except.ok (recs.map (fun r => some (Json.jstr r.url))) := by
  induction recs with
  | nil => rfl
  | cons r rs ih => simp [mapExcept, objGet_url_toJson, ih]

/-- `join` over the extracted urls of a record sequence. -/
theorem mapExcept_requireStr_urls (recs : List BookmarkRecord) :
    mapExcept requireStr (recs.map (fun r => some (Json.jstr r.url))) =
      Except.ok (recs.map (fun r => r.url)) := by
  induction recs with
  | nil => rfl
  | cons r rs ih => simp [mapExcept, requireStr, ih]

/-- Claim C8: rendering a record sequence in `text` format emits the
`url` fields one per line, newline-joined with no trailing newline; the
spec's example record yields the body `http://a`. -/
theorem C8_text_rendering (recs : List BookmarkRecord) :
    output_result (Json.jarr (recs.map BookmarkRecord.toJson)) "text" =
      Except.ok (some ⟨200, [("Content-type", "text/plain")], textRenderSpec recs⟩) ∧
    output_result (Json.jarr [Json.jobj [("url", Json.jstr "http://a"),
        ("title", Json.jstr "A")]]) "text" =
      Except.ok (some ⟨200, [("Content-type", "text/plain")], "http://a"⟩) := by
  refine ⟨?_, rfl⟩
  simp [output_result, mapExcept_objGet_url, mapExcept_requireStr_urls,
    textRenderSpec]

/-- Claim C9: every OPTIONS request to a path under `/add` gets status
200, exactly the five CORS headers (origin `*`, the allowed methods,
credentials `true`, max-age `86400`, and the allowed request headers),
and an empty body. -/
theorem C9_options_cors (path : String) (h : pyStartsWith path "/add" = true) :
    do_OPTIONS path = some ⟨200, corsHeaders, ""⟩ ∧
    corsHeaders.length = 5 ∧
    ("Access-Control-Allow-Origin", "*") ∈ corsHeaders ∧
    ("Access-Control-Allow-Methods", "POST, GET, OPTIONS, PUT, DELETE") ∈ corsHeaders ∧
    ("Access-Control-Allow-Credentials", "true") ∈ corsHeaders ∧
    ("Access-Control-Max-Age", "86400") ∈ corsHeaders ∧
    ("Access-Control-Allow-Headers", "Content-Type, Authorization, X-Requested-With") ∈ corsHeaders := by
  refine ⟨?_, by decide, by decide, by decide, by decide, by decide, by decide⟩
  simp [do_OPTIONS, h]

/-- Claim C9, witness at the path `/add`. -/
theorem C9_options_cors_witness :
    do_OPTIONS "/add" = some ⟨200, corsHeaders, ""⟩ :=
  (C9_options_cors "/add" rfl).1

/-- Claim C10: a `format` value that is none of `json`, `text`, `html`
falls through all three branches of `output_result`: no status line, no
headers and no body are written, and a Search request with `format=xml`
yields no HTTP response content. -/
theorem C10_unknown_format (format : String) (v : Json)
    (h1 : format ≠ "json") (h2 : format ≠ "text") (h3 : format ≠ "html") :
    output_result v format = Except.ok none ∧
    handle_search "/search?q=foo&format=xml" (fun _ => ToolOutcome.ok "[]") =
      Except.ok none := by
  refine ⟨?_, rfl⟩
  simp [output_result, h1, h2, h3]

/-- Claim C10, witness at `format=xml`. -/
theorem C10_unknown_format_witness :
    output_result Json.jnull "xml" = Except.ok none ∧
    handle_search "/search?q=foo&format=xml" (fun _ => ToolOutcome.ok "[]") =
      Except.ok none :=
  C10_unknown_format "xml" Json.jnull (by decide) (by decide) (by decide)

end BashBookmarks
